import Mathlib

/-!
Shallow embedding of the duty-log aggregation and compliance rendering
engine of the hos-app repository (React frontend).  Timestamps are
modelled as integer milliseconds since the Unix epoch (the numeric value
of a JS `Date`); fractional hour arithmetic is carried out in `ℚ`.
Status tags are strings, as in the source, so that unknown tags can be
represented faithfully.
-/

/-- A duty-status interval as supplied by the planner: a `status` tag plus
start and end timestamps in milliseconds.  The source field `end` is a
Lean keyword, so it is embedded under the name `stop`. -/
structure DutyInterval where
  status : String
  start : Int
  stop : Int
  deriving DecidableEq, Repr

/-- `durationHours` from spec §4.1: `(end - start)` expressed in hours. -/
def durationHours (a : DutyInterval) : ℚ :=
  ((a.stop - a.start : Int) : ℚ) / 3600000

/-- `calcHours` from `DaySummarySidebar.js` (lines 3–11): filter the
activities by status, then reduce with
`sum + (e - s) / 3600000` starting from `0`. -/
def calcHours (activities : List DutyInterval) (status : String) : ℚ :=
  (activities.filter (fun a => a.status == status)).foldl
    (fun sum a => sum + ((a.stop - a.start : Int) : ℚ) / 3600000) 0

/-- `calcTotalHours` from the `LogCanvas` component (second part of
`DaySummarySidebar.js`, lines 126–132): the same filter-and-reduce. -/
def calcTotalHours (activities : List DutyInterval) (status : String) : ℚ :=
  (activities.filter (fun a => a.status == status)).foldl
    (fun sum a => sum + ((a.stop - a.start : Int) : ℚ) / 3600000) 0

/-- A day of the trip: calendar date and its activity list (spec §3). -/
structure Day where
  date : String
  activities : List DutyInterval
  deriving DecidableEq, Repr

/-- `AggregatedTotals` from spec §3: the four per-status hour totals. -/
structure AggregatedTotals where
  driveHours : ℚ
  onDutyHours : ℚ
  offDutyHours : ℚ
  sleeperHours : ℚ
  deriving DecidableEq, Repr

/-- `aggregate(day)` (spec §4.2) as computed in the `LogCanvas` export
path (`driveHrs` / `onDutyHrs` / `offDutyHrs`, lines 202–204), extended
to the Sleeper lane with the same `calcTotalHours`. -/
def aggregate (day : Day) : AggregatedTotals :=
  ⟨calcTotalHours day.activities "Driving",
   calcTotalHours day.activities "OnDuty",
   calcTotalHours day.activities "OffDuty",
   calcTotalHours day.activities "Sleeper"⟩

/-- `currentCycleHours` from `LogCanvas` (lines 135–141): reduce over the
days of Driving plus OnDuty totals, starting from `0`. -/
def currentCycleHours (logDays : List Day) : ℚ :=
  logDays.foldl
    (fun sum d => sum + calcTotalHours d.activities "Driving"
      + calcTotalHours d.activities "OnDuty") 0

/-- Hour-of-day extraction as used in `drawCanvas`
(`start.getUTCHours() + start.getUTCMinutes() / 60`): the JS `Date`
accessors are floor division of the millisecond timestamp with a
non-negative remainder, i.e. Euclidean `ediv`/`emod`. -/
def hourOfDayUTC (t : Int) : ℚ :=
  (((t.ediv 3600000).emod 24 : Int) : ℚ)
    + (((t.ediv 60000).emod 60 : Int) : ℚ) / 60

/-- `GridCell` from spec §3: one projected segment of a day timeline. -/
structure GridCell where
  status : String
  columnStart : ℚ
  columnEnd : ℚ
  deriving DecidableEq, Repr

/-- The per-activity projection performed by `drawCanvas` in `LogCanvas`
(lines 89–105): one stroked segment per activity, from `startHours` to
`endHours` on the lane of its status — embedded as the list of projected
cells, with columns in hours (the `× width / 24` pixel scale and the
lane `y` coordinate are handled by separate constants below). -/
def drawCanvasCells (dayActivities : List DutyInterval) : List GridCell :=
  dayActivities.map fun a =>
    ⟨a.status, hourOfDayUTC a.start, hourOfDayUTC a.stop⟩

/-- The `statusY` lookup object of `LogCanvas` / `MapComponent`. -/
def statusY (s : String) : Option ℚ :=
  if s = "OffDuty" then some 162
  else if s = "Sleeper" then some 122
  else if s = "Driving" then some 84
  else if s = "OnDuty" then some 46
  else none

/-- The lane coordinate used by `drawCanvas`:
`statusY[a.status] || statusY.OffDuty` — all stored values are truthy, so
the fallback fires exactly on a missing key. -/
def laneY (s : String) : ℚ := (statusY s).getD 162

/-- The `colors` lookup object of `LogCanvas` / `MapComponent`. -/
def colorsMap (s : String) : Option String :=
  if s = "OffDuty" then some "#66cc66"
  else if s = "Sleeper" then some "#9966ff"
  else if s = "Driving" then some "#1E90FF"
  else if s = "OnDuty" then some "#FFA500"
  else none

/-- The stroke colour used by `drawCanvas`: `colors[a.status] || "#000"`. -/
def strokeStyle (s : String) : String := (colorsMap s).getD "#000"

/-- Modelled from the spec: the compliance evaluator (§4.4) lives in the
backend service, which is absent from src/ — the frontend
`ComplianceSummary` component only renders the warnings it receives in
its props.  Per §4.4: if `tripTotals.driveHours + tripTotals.onDutyHours
> 70`, emit the warning `"Exceeds 70-hour/8-day on-duty limit"`. -/
def evaluate (tripTotals : AggregatedTotals) : List String :=
  if 70 < tripTotals.driveHours + tripTotals.onDutyHours then
    ["Exceeds 70-hour/8-day on-duty limit"]
  else []

/-- A trip as described in spec §3. -/
structure Trip where
  origin : String
  destination : String
  days : List Day
  totalMiles : ℚ
  deriving DecidableEq, Repr

/-- Modelled from the spec: `aggregateTrip` (§4.2) — the per-field trip
totals — is computed by the backend (`trip_summary`), absent from src/;
the only trip-level aggregation in src/ is `currentCycleHours`.  Per
§4.2 it sums each field across all days. -/
def aggregateTrip (days : List Day) : AggregatedTotals :=
  ⟨(days.map fun d => (aggregate d).driveHours).sum,
   (days.map fun d => (aggregate d).onDutyHours).sum,
   (days.map fun d => (aggregate d).offDutyHours).sum,
   (days.map fun d => (aggregate d).sleeperHours).sum⟩

/-- `Page` from spec §3. -/
structure Page where
  day : Day
  grid : List GridCell
  totals : AggregatedTotals
  deriving DecidableEq, Repr

/-- `Report` from spec §3. -/
structure Report where
  pages : List Page
  tripTotals : AggregatedTotals
  warnings : List String
  deriving DecidableEq, Repr

/-- Modelled from the spec: `buildReport` (§4.5) has no single named
entry point in src/ — report assembly is distributed over the
`LogCanvas` render and export paths.  Per §4.5 it composes one page per
day from the src-embedded components (grid = the `drawCanvas`
projection, totals = the `calcTotalHours` aggregates), then the trip
totals and the warnings. -/
def buildReport (t : Trip) : Report :=
  ⟨t.days.map fun d => ⟨d, drawCanvasCells d.activities, aggregate d⟩,
   aggregateTrip t.days,
   evaluate (aggregateTrip t.days)⟩

/-- An activity as drawn interactively in `MapComponent.js`: a status tag
plus `startHour` / `endHour` already expressed in hours. -/
structure MapActivity where
  status : String
  startHour : ℚ
  endHour : ℚ
  deriving DecidableEq, Repr

/-- `calcHours` from `MapComponent.js` (lines 185–189): the per-interval
contribution is clamped at zero via `Math.max(endHour - startHour, 0)`;
the trailing `toFixed(1)` is string presentation and is not part of the
numeric value embedded here. -/
def mapCalcHours (activities : List MapActivity) (status : String) : ℚ :=
  (activities.filter (fun a => a.status == status)).foldl
    (fun sum a => sum + max (a.endHour - a.startHour) 0) 0

/-- The state of the real-time tracker in `MapComponent.js`. -/
structure RealTime where
  elapsed : ℚ
  remaining : ℚ
  deriving DecidableEq, Repr

/-- One step of the tracker interval (`MapComponent.js` lines 175–183):
`elapsed ↦ min(elapsed + 0.1, 70)`, `remaining ↦ max(remaining - 0.1, 0)`. -/
def tick (s : RealTime) : RealTime :=
  ⟨min (s.elapsed + 0.1) 70, max (s.remaining - 0.1) 0⟩

/-! ## Sample fixtures used by witnesses and counterexamples -/

/-- A Driving interval 00:00–02:00 UTC. -/
def iDrive : DutyInterval := ⟨"Driving", 0, 7200000⟩

/-- An OnDuty interval 02:00–03:30 UTC. -/
def iOn : DutyInterval := ⟨"OnDuty", 7200000, 12600000⟩

/-- An OnDuty interval 23:00–01:00 UTC, crossing midnight. -/
def iCross : DutyInterval := ⟨"OnDuty", 82800000, 90000000⟩

/-- An interval with `end < start` (02:00 back to 01:00). -/
def iBad : DutyInterval := ⟨"Driving", 7200000, 3600000⟩

/-- Another interval with `end < start` (03:00 back to 01:00). -/
def iNeg : DutyInterval := ⟨"Driving", 10800000, 3600000⟩

/-- A sample day holding the two canonical §8 intervals. -/
def dSample : Day := ⟨"2025-11-01", [iDrive, iOn]⟩

/-- A sample interactive activity for `MapComponent`. -/
def mAct : MapActivity := ⟨"Driving", 1, 2⟩

/-- A sample trip with one day. -/
def tSample : Trip := ⟨"Los Angeles, CA", "Dallas, TX", [dSample], 1750⟩

/-! ## Helper lemmas -/

/-- Folding addition of `f` over a list sums the mapped list. -/
theorem foldl_add_map_sum {α : Type} (f : α → ℚ) (l : List α) :
    ∀ c : ℚ, l.foldl (fun sum a => sum + f a) c = c + (l.map f).sum := by
  induction l with
  | nil => intro c; simp
  | cons a l ih =>
    intro c
    simp only [List.foldl_cons, List.map_cons, List.sum_cons, ih (c + f a)]
    ring

/-- `calcHours` is the sum of `durationHours` over the status-matching
activities. -/
theorem calcHours_eq_sum (acts : List DutyInterval) (s : String) :
    calcHours acts s
      = ((acts.filter (fun a => a.status == s)).map durationHours).sum := by
  have h := foldl_add_map_sum durationHours (acts.filter (fun a => a.status == s)) 0
  simpa [calcHours, durationHours] using h

/-- `calcTotalHours` is the same sum. -/
theorem calcTotalHours_eq_sum (acts : List DutyInterval) (s : String) :
    calcTotalHours acts s
      = ((acts.filter (fun a => a.status == s)).map durationHours).sum := by
  have h := foldl_add_map_sum durationHours (acts.filter (fun a => a.status == s)) 0
  simpa [calcTotalHours, durationHours] using h

/-- Non-negativity of the hour-of-day projection. -/
theorem hourOfDayUTC_nonneg (t : Int) : 0 ≤ hourOfDayUTC t := by
  unfold hourOfDayUTC
  have h1 : (0 : Int) ≤ (t.ediv 3600000).emod 24 := Int.emod_nonneg _ (by norm_num)
  have h2 : (0 : Int) ≤ (t.ediv 60000).emod 60 := Int.emod_nonneg _ (by norm_num)
  have h1' : (0 : ℚ) ≤ (((t.ediv 3600000).emod 24 : Int) : ℚ) := by exact_mod_cast h1
  have h2' : (0 : ℚ) ≤ (((t.ediv 60000).emod 60 : Int) : ℚ) := by exact_mod_cast h2
  have h3 : (0 : ℚ) ≤ (((t.ediv 60000).emod 60 : Int) : ℚ) / 60 := by positivity
  linarith

/-- The hour-of-day projection stays below 24. -/
theorem hourOfDayUTC_lt_24 (t : Int) : hourOfDayUTC t < 24 := by
  unfold hourOfDayUTC
  have h1 : (t.ediv 3600000).emod 24 < 24 := Int.emod_lt_of_pos _ (by norm_num)
  have h2 : (t.ediv 60000).emod 60 < 60 := Int.emod_lt_of_pos _ (by norm_num)
  have h1a : (t.ediv 3600000).emod 24 ≤ 23 := by omega
  have h1' : (((t.ediv 3600000).emod 24 : Int) : ℚ) ≤ 23 := by exact_mod_cast h1a
  have h2' : (((t.ediv 60000).emod 60 : Int) : ℚ) < 60 := by exact_mod_cast h2
  have h3 : (((t.ediv 60000).emod 60 : Int) : ℚ) / 60 < 1 := by linarith
  linarith

/-- With every interval well-ordered, `calcTotalHours` is non-negative. -/
theorem calcTotalHours_nonneg (acts : List DutyInterval) (s : String)
    (h : ∀ a ∈ acts, a.start ≤ a.stop) : 0 ≤ calcTotalHours acts s := by
  rw [calcTotalHours_eq_sum]
  apply List.sum_nonneg
  intro x hx
  simp only [List.mem_map] at hx
  obtain ⟨a, ha, rfl⟩ := hx
  have ha' : a ∈ acts := List.mem_of_mem_filter ha
  have hle : (a.start : ℚ) ≤ (a.stop : ℚ) := by exact_mod_cast h a ha'
  unfold durationHours
  apply div_nonneg _ (by norm_num)
  push_cast
  linarith

/-- The clamped `MapComponent` aggregation is unconditionally non-negative. -/
theorem mapCalcHours_nonneg (acts : List MapActivity) (s : String) :
    0 ≤ mapCalcHours acts s := by
  unfold mapCalcHours
  rw [foldl_add_map_sum (fun a : MapActivity => max (a.endHour - a.startHour) 0)]
  rw [zero_add]
  apply List.sum_nonneg
  intro x hx
  simp only [List.mem_map] at hx
  obtain ⟨a, _, rfl⟩ := hx
  exact le_max_right _ _

/-! ## Claim theorems -/

/-- Claim C1: for every day and status, the aggregated hours equal the sum
of `durationHours` over exactly the status-matching intervals,
independently of the order of the activities; in particular the
`aggregate` drive total is the sum of `durationHours` over the Driving
intervals. -/
theorem calcHours_sums_durationHours (acts acts' : List DutyInterval) (s : String)
    (d : Day) (h : acts.Perm acts') :
    calcHours acts s = ((acts.filter (fun a => a.status == s)).map durationHours).sum
    ∧ calcHours acts' s = calcHours acts s
    ∧ (aggregate d).driveHours
        = ((d.activities.filter (fun a => a.status == "Driving")).map durationHours).sum := by
  refine ⟨calcHours_eq_sum acts s, ?_, calcTotalHours_eq_sum d.activities "Driving"⟩
  rw [calcHours_eq_sum, calcHours_eq_sum]
  exact (((h.filter _).map durationHours).sum_eq).symm

/-- Witness for C1: the §8 example day `[00:00–02:00 Driving],
[02:00–03:30 OnDuty]` and its transposition. -/
theorem calcHours_sums_durationHours_witness :
    calcHours [iDrive, iOn] "Driving"
      = (([iDrive, iOn].filter (fun a => a.status == "Driving")).map durationHours).sum
    ∧ calcHours [iOn, iDrive] "Driving" = calcHours [iDrive, iOn] "Driving"
    ∧ (aggregate dSample).driveHours
        = ((dSample.activities.filter (fun a => a.status == "Driving")).map durationHours).sum :=
  calcHours_sums_durationHours [iDrive, iOn] [iOn, iDrive] "Driving" dSample
    (List.Perm.swap iOn iDrive [])

/-- Claim C2 counterexample: the 23:00–01:00 OnDuty interval crosses
midnight in the wall-clock projection (columnEnd 1 < columnStart 23),
yet `drawCanvas` produces a single cell `[23, 1]` — not the two cells
`[23, 24]` and `[0, 1]` the claim requires. -/
theorem drawCanvas_midnight_no_split_cex :
    hourOfDayUTC iCross.stop < hourOfDayUTC iCross.start
    ∧ drawCanvasCells [iCross] = [⟨"OnDuty", 23, 1⟩]
    ∧ (drawCanvasCells [iCross]).length ≠ 2 := by
  norm_num [iCross, drawCanvasCells, hourOfDayUTC]

/-- Claim C2 as amended: every interval — midnight-crossing or not —
projects to exactly one cell `[hourOfDayUTC start, hourOfDayUTC end]`
tagged with its original status, both coordinates lying in `[0, 24)`;
no interval is ever split. -/
theorem drawCanvas_single_cell (acts : List DutyInterval) (c : GridCell)
    (hc : c ∈ drawCanvasCells acts) :
    drawCanvasCells acts
      = acts.map (fun a => ⟨a.status, hourOfDayUTC a.start, hourOfDayUTC a.stop⟩)
    ∧ (drawCanvasCells acts).length = acts.length
    ∧ (0 ≤ c.columnStart ∧ c.columnStart < 24 ∧ 0 ≤ c.columnEnd ∧ c.columnEnd < 24) := by
  refine ⟨rfl, by simp [drawCanvasCells], ?_⟩
  simp only [drawCanvasCells, List.mem_map] at hc
  obtain ⟨a, _, rfl⟩ := hc
  exact ⟨hourOfDayUTC_nonneg _, hourOfDayUTC_lt_24 _,
    hourOfDayUTC_nonneg _, hourOfDayUTC_lt_24 _⟩

/-- Witness for the amended C2 at the midnight-crossing interval. -/
theorem drawCanvas_single_cell_witness :
    drawCanvasCells [iCross]
      = [iCross].map (fun a => ⟨a.status, hourOfDayUTC a.start, hourOfDayUTC a.stop⟩)
    ∧ (drawCanvasCells [iCross]).length = [iCross].length
    ∧ (0 ≤ (⟨"OnDuty", 23, 1⟩ : GridCell).columnStart
        ∧ (⟨"OnDuty", 23, 1⟩ : GridCell).columnStart < 24
        ∧ 0 ≤ (⟨"OnDuty", 23, 1⟩ : GridCell).columnEnd
        ∧ (⟨"OnDuty", 23, 1⟩ : GridCell).columnEnd < 24) :=
  drawCanvas_single_cell [iCross] ⟨"OnDuty", 23, 1⟩
    (by norm_num [drawCanvasCells, iCross, hourOfDayUTC])

/-- Claim C3: the 70-hour warning is emitted iff
`driveHours + onDutyHours` strictly exceeds 70; at exactly 70 no warning
is produced, and at 70.1 exactly the single warning. -/
theorem evaluate_seventy_hour_threshold :
    (∀ t : AggregatedTotals,
      "Exceeds 70-hour/8-day on-duty limit" ∈ evaluate t
        ↔ 70 < t.driveHours + t.onDutyHours)
    ∧ (∀ t : AggregatedTotals, (evaluate t).length ≤ 1)
    ∧ evaluate ⟨35, 35, 0, 0⟩ = []
    ∧ evaluate ⟨35, 35.1, 0, 0⟩ = ["Exceeds 70-hour/8-day on-duty limit"] := by
  refine ⟨fun t => ?_, fun t => ?_, by norm_num [evaluate], by norm_num [evaluate]⟩
  · by_cases h : 70 < t.driveHours + t.onDutyHours <;> simp [evaluate, h]
  · by_cases h : 70 < t.driveHours + t.onDutyHours <;> simp [evaluate, h]

/-- Claim C4 counterexample: no validation exists — `drawCanvas` maps the
unknown status `"PersonalConveyance"` onto the OffDuty lane and the
default stroke colour, and `calcHours` silently aggregates an interval
with `end < start` into a negative total instead of rejecting it. -/
theorem no_validate_cex :
    laneY "PersonalConveyance" = laneY "OffDuty"
    ∧ strokeStyle "PersonalConveyance" = "#000"
    ∧ calcHours [iBad] "Driving" = -1 := by
  refine ⟨by simp [laneY, statusY], by simp [strokeStyle, colorsMap],
    by norm_num [calcHours, iBad]⟩

/-- Claim C4 as amended: the code performs no validation at all — every
status outside the four canonical values is silently coerced to the
OffDuty lane and the black stroke colour, and every interval (including
`end < start`) contributes its raw signed duration to aggregation; no
error value is ever produced. -/
theorem unknown_status_defaults (s : String) (a : DutyInterval)
    (h : s ∉ ["OffDuty", "Sleeper", "Driving", "OnDuty"]) :
    laneY s = laneY "OffDuty"
    ∧ strokeStyle s = "#000"
    ∧ calcHours [a] a.status = durationHours a := by
  simp only [List.mem_cons, List.not_mem_nil, or_false, not_or] at h
  obtain ⟨h1, h2, h3, h4⟩ := h
  refine ⟨by simp [laneY, statusY, h1, h2, h3, h4],
    by simp [strokeStyle, colorsMap, h1, h2, h3, h4], ?_⟩
  simp [calcHours, durationHours]

/-- Witness for the amended C4 at a concrete unknown status and the
backwards interval. -/
theorem unknown_status_defaults_witness :
    laneY "PersonalConveyance" = laneY "OffDuty"
    ∧ strokeStyle "PersonalConveyance" = "#000"
    ∧ calcHours [iBad] iBad.status = durationHours iBad :=
  unknown_status_defaults "PersonalConveyance" iBad (by simp)

/-- Claim C5: overlapping same-status intervals are not merged — the
total is the straight per-interval sum, and the overlapping Driving
pair `[01:00–03:00]`, `[02:00–04:00]` aggregates to 4 hours, not 3. -/
theorem overlap_no_merge :
    (∀ (l1 l2 : List DutyInterval) (s : String),
      calcHours (l1 ++ l2) s = calcHours l1 s + calcHours l2 s)
    ∧ calcHours [⟨"Driving", 3600000, 10800000⟩, ⟨"Driving", 7200000, 14400000⟩]
        "Driving" = 4 := by
  constructor
  · intro l1 l2 s
    rw [calcHours_eq_sum, calcHours_eq_sum, calcHours_eq_sum,
      List.filter_append, List.map_append, List.sum_append]
  · norm_num [calcHours]

/-- Claim C6: each field of the trip-level aggregate is the sum over the
days of the per-day aggregate field, and the cycle-hour total of
`LogCanvas` is the sum over days of per-day drive plus on-duty hours. -/
theorem trip_totals_sum_of_day_totals (days : List Day) :
    (aggregateTrip days).offDutyHours = (days.map fun d => (aggregate d).offDutyHours).sum
    ∧ (aggregateTrip days).driveHours = (days.map fun d => (aggregate d).driveHours).sum
    ∧ (aggregateTrip days).onDutyHours = (days.map fun d => (aggregate d).onDutyHours).sum
    ∧ (aggregateTrip days).sleeperHours = (days.map fun d => (aggregate d).sleeperHours).sum
    ∧ currentCycleHours days
        = (days.map fun d => (aggregate d).driveHours + (aggregate d).onDutyHours).sum := by
  refine ⟨rfl, rfl, rfl, rfl, ?_⟩
  have hfun : (fun (sum : ℚ) (d : Day) =>
        sum + calcTotalHours d.activities "Driving" + calcTotalHours d.activities "OnDuty")
      = fun (sum : ℚ) (d : Day) =>
        sum + (calcTotalHours d.activities "Driving" + calcTotalHours d.activities "OnDuty") := by
    funext sum d; ring
  unfold currentCycleHours
  rw [hfun, foldl_add_map_sum
    (fun d : Day => calcTotalHours d.activities "Driving" + calcTotalHours d.activities "OnDuty")]
  simp [aggregate]

/-- Claim C7 counterexample: aggregation can produce a negative total —
the backwards Driving interval 03:00→01:00 yields −2 drive hours. -/
theorem negative_total_cex :
    (aggregate ⟨"2025-11-02", [iNeg]⟩).driveHours = -2
    ∧ ¬ (0 ≤ (aggregate ⟨"2025-11-02", [iNeg]⟩).driveHours) := by
  norm_num [aggregate, calcTotalHours, iNeg]

/-- Claim C7 as amended: all four aggregated fields are non-negative for
every day whose intervals all satisfy `start ≤ end`; the clamped
`MapComponent` variant is unconditionally non-negative; but with a
backwards interval the unclamped aggregation can go negative. -/
theorem totals_nonneg_of_valid (d : Day) (macts : List MapActivity) (s : String)
    (h : ∀ a ∈ d.activities, a.start ≤ a.stop) :
    0 ≤ (aggregate d).driveHours ∧ 0 ≤ (aggregate d).onDutyHours
    ∧ 0 ≤ (aggregate d).offDutyHours ∧ 0 ≤ (aggregate d).sleeperHours
    ∧ 0 ≤ mapCalcHours macts s :=
  ⟨calcTotalHours_nonneg _ _ h, calcTotalHours_nonneg _ _ h, calcTotalHours_nonneg _ _ h,
   calcTotalHours_nonneg _ _ h, mapCalcHours_nonneg _ _⟩

/-- Witness for the amended C7 at the sample day and sample activity. -/
theorem totals_nonneg_of_valid_witness :
    0 ≤ (aggregate dSample).driveHours ∧ 0 ≤ (aggregate dSample).onDutyHours
    ∧ 0 ≤ (aggregate dSample).offDutyHours ∧ 0 ≤ (aggregate dSample).sleeperHours
    ∧ 0 ≤ mapCalcHours [mAct] "Driving" :=
  totals_nonneg_of_valid dSample [mAct] "Driving" (by decide)

/-- Claim C8: report assembly is deterministic and idempotent — two calls
on equal trips give structurally equal Reports, and every component of
the Report (pages, grids, totals, warnings) is a pure function of the
trip data alone. -/
theorem buildReport_deterministic (t t' : Trip) (h : t = t') :
    buildReport t = buildReport t'
    ∧ (buildReport t).pages.map Page.totals = t.days.map aggregate
    ∧ (buildReport t).pages.map Page.grid = t.days.map (fun d => drawCanvasCells d.activities)
    ∧ (buildReport t).pages.map Page.day = t.days
    ∧ (buildReport t).tripTotals = aggregateTrip t.days
    ∧ (buildReport t).warnings = evaluate (aggregateTrip t.days) := by
  subst h
  refine ⟨rfl, ?_, ?_, ?_, rfl, rfl⟩ <;>
    simp [buildReport, Function.comp_def, List.map_id]

/-- Witness for C8 at the sample trip. -/
theorem buildReport_deterministic_witness :
    buildReport tSample = buildReport tSample
    ∧ (buildReport tSample).pages.map Page.totals = tSample.days.map aggregate
    ∧ (buildReport tSample).pages.map Page.grid
        = tSample.days.map (fun d => drawCanvasCells d.activities)
    ∧ (buildReport tSample).pages.map Page.day = tSample.days
    ∧ (buildReport tSample).tripTotals = aggregateTrip tSample.days
    ∧ (buildReport tSample).warnings = evaluate (aggregateTrip tSample.days) :=
  buildReport_deterministic tSample tSample rfl

/-- Claim C9: the sidebar aggregation `calcHours` and the PDF-export
aggregation `calcTotalHours` agree on every input. -/
theorem calcHours_eq_calcTotalHours (acts : List DutyInterval) (s : String) :
    calcHours acts s = calcTotalHours acts s := rfl

/-- Claim C10: the tracker step preserves `elapsed ≤ 70 ∧ 0 ≤ remaining`
under every sequence of ticks. -/
theorem tick_preserves_invariant (n : Nat) (s : RealTime)
    (h1 : s.elapsed ≤ 70) (h2 : 0 ≤ s.remaining) :
    (tick^[n] s).elapsed ≤ 70 ∧ 0 ≤ (tick^[n] s).remaining := by
  induction n generalizing s with
  | zero => simpa using ⟨h1, h2⟩
  | succ n ih =>
    rw [Function.iterate_succ_apply]
    exact ih (tick s) (min_le_right _ _) (le_max_right _ _)

/-- Witness for C10: five ticks from the state (69, 1). -/
theorem tick_preserves_invariant_witness :
    (tick^[5] (⟨69, 1⟩ : RealTime)).elapsed ≤ 70
    ∧ 0 ≤ (tick^[5] (⟨69, 1⟩ : RealTime)).remaining :=
  tick_preserves_invariant 5 ⟨69, 1⟩ (by norm_num) (by norm_num)
